import Mathlib

/-
Shallow embedding of the bit-bang 1-Wire driver (src/oneWire.c, src/oneWire.h).

Modelling conventions:
  - Machine integers are Nat with explicit truncation where the C code
    truncates: uint8_t fields reduce mod 256 at each write, TickType_t
    arithmetic reduces mod 2^32.
  - The GPIO pin level is a Bool: true = GPIO_PIN_SET (bus high),
    false = GPIO_PIN_RESET (bus low).
  - Hardware side effects (HAL_GPIO_WritePin / HAL_GPIO_ReadPin) are
    represented as an emitted list of OneWireAction values; the pin level
    that read_pin would return is an input of onewire_process.
  - xTaskGetTickCount() is an input now : Nat of every function that calls
    it in C.  The file-scope global sampled_bus_bit is threaded through
    onewire_process as an explicit Bool argument and result.
  - The Pin and Port fields of OneWireDriver only feed the HAL primitives,
    so they are not part of the embedded record.
  - oneWire.c dispatches on states named ONEWIRE_STATE_READ_* ; the header
    enum in the repository instead lists MASTER_READ_* / SLAVE_READ_*
    variants.  The embedding follows oneWire.c, whose switch statement is
    the behaviour under test; IDLE, ERROR and RESET_DONE have no case of
    their own there and land in the default branch.
-/

/-- Bus side effects performed by the driver: HAL_GPIO_WritePin low
(pull_low), HAL_GPIO_WritePin high (pull_high), HAL_GPIO_ReadPin
(read_pin). -/
inductive OneWireAction where
  | driveLow
  | release
  | sample
deriving DecidableEq, Repr

/-- States dispatched on by onewire_process in oneWire.c. -/
inductive OneWireState where
  | ONEWIRE_STATE_IDLE
  | ONEWIRE_STATE_ERROR
  | ONEWIRE_STATE_RESET_INIT
  | ONEWIRE_STATE_RESET_DRIVE_BUS_LOW
  | ONEWIRE_STATE_RESET_RELEASE_BUS
  | ONEWIRE_STATE_RESET_SAMPLE_BUS
  | ONEWIRE_STATE_RESET_DONE
  | ONEWIRE_STATE_WRITE_HIGH_INIT
  | ONEWIRE_STATE_WRITE_HIGH_DRIVE_BUS_LOW
  | ONEWIRE_STATE_WRITE_HIGH_RELEASE_BUS
  | ONEWIRE_STATE_WRITE_HIGH_DONE
  | ONEWIRE_STATE_WRITE_LOW_INIT
  | ONEWIRE_STATE_WRITE_LOW_DRIVE_BUS_LOW
  | ONEWIRE_STATE_WRITE_LOW_RELEASE_BUS
  | ONEWIRE_STATE_WRITE_LOW_DONE
  | ONEWIRE_STATE_READ_INIT
  | ONEWIRE_STATE_READ_DRIVE_BUS_LOW
  | ONEWIRE_STATE_READ_RELEASE_BUS
  | ONEWIRE_STATE_READ_SAMPLE_BUS
  | ONEWIRE_STATE_READ_DONE
deriving DecidableEq, Repr

export OneWireState (
  ONEWIRE_STATE_IDLE ONEWIRE_STATE_ERROR
  ONEWIRE_STATE_RESET_INIT ONEWIRE_STATE_RESET_DRIVE_BUS_LOW
  ONEWIRE_STATE_RESET_RELEASE_BUS ONEWIRE_STATE_RESET_SAMPLE_BUS
  ONEWIRE_STATE_RESET_DONE
  ONEWIRE_STATE_WRITE_HIGH_INIT ONEWIRE_STATE_WRITE_HIGH_DRIVE_BUS_LOW
  ONEWIRE_STATE_WRITE_HIGH_RELEASE_BUS ONEWIRE_STATE_WRITE_HIGH_DONE
  ONEWIRE_STATE_WRITE_LOW_INIT ONEWIRE_STATE_WRITE_LOW_DRIVE_BUS_LOW
  ONEWIRE_STATE_WRITE_LOW_RELEASE_BUS ONEWIRE_STATE_WRITE_LOW_DONE
  ONEWIRE_STATE_READ_INIT ONEWIRE_STATE_READ_DRIVE_BUS_LOW
  ONEWIRE_STATE_READ_RELEASE_BUS ONEWIRE_STATE_READ_SAMPLE_BUS
  ONEWIRE_STATE_READ_DONE)

/-- OneWireFlags enum from oneWire.h; the enum value is the bit position
in flag_reg. -/
inductive OneWireFlags where
  | FLAG_ERROR
  | FLAG_PRESENCE_DETECTED
  | FLAG_BYTE_RECEIVED
  | FLAG_BYTE_SEND
  | FLAG_IS_SLAVE
deriving DecidableEq, Repr

export OneWireFlags (FLAG_ERROR FLAG_PRESENCE_DETECTED FLAG_BYTE_RECEIVED
  FLAG_BYTE_SEND FLAG_IS_SLAVE)

/-- Numeric value of the OneWireFlags enumerator (C enum numbering). -/
def OneWireFlags.toNat : OneWireFlags → Nat
  | FLAG_ERROR => 0
  | FLAG_PRESENCE_DETECTED => 1
  | FLAG_BYTE_RECEIVED => 2
  | FLAG_BYTE_SEND => 3
  | FLAG_IS_SLAVE => 4

/-- Modulus of uint8_t arithmetic. -/
def UINT8_MOD : Nat := 256

/-- Modulus of TickType_t (uint32_t) arithmetic. -/
def TICK_MOD : Nat := 2 ^ 32

-- Standard-speed timing constants from oneWire.h (microseconds).
def WRITE_1_LOW_DELAY : Nat := 6
def WRITE_1_RELEASE_BUS_DELAY : Nat := 64
def WRITE_0_LOW_DELAY : Nat := 60
def WRITE_0_RELEASE_BUS_DELAY : Nat := 10
def READ_RELEASE_BUS_DELAY : Nat := 9
def READ_SAMPLE_DELAY : Nat := 55
def RESET_INIT_DELAY : Nat := 0
def RESET_DRIVE_BUS_LOW_DELAY : Nat := 480
def RESET_RELEASE_BUS_DELAY : Nat := 70
def RESET_SAMPLE_BUS_DELAY : Nat := 410

/-- Modelled from the spec: the Monotonic Clock collaborator exposes a
known tick-to-time conversion.  pdMS_TO_TICKS is the FreeRTOS macro
(not part of this repository) converting milliseconds to ticks at a
configured tick rate hz: ms * hz / 1000, truncated to TickType_t. -/
def pdMS_TO_TICKS (hz ms : Nat) : Nat := ms * hz / 1000 % TICK_MOD

/-- Engine instance, struct OneWireDriver from oneWire.h, minus the
hardware-identity fields Pin and Port. -/
structure OneWireDriver where
  state : OneWireState
  tx_byte : Nat
  rx_byte : Nat
  bit_index : Nat
  timestamp : Nat
  flag_reg : Nat
deriving DecidableEq, Repr

/-- is_time_expired from oneWire.c: timestamp + pdMS_TO_TICKS(e) <= now,
computed in TickType_t arithmetic.  Note that the conversion is applied
to the argument here, on top of any conversion already applied by the
caller. -/
def is_time_expired (hz now : Nat) (onewire : OneWireDriver)
    (expatration_time : Nat) : Bool :=
  decide ((onewire.timestamp + pdMS_TO_TICKS hz expatration_time) % TICK_MOD ≤ now)

/-- set_state from oneWire.c: store the new state and record the current
tick count as the phase timestamp. -/
def set_state (now : Nat) (onewire : OneWireDriver) (new_state : OneWireState) :
    OneWireDriver :=
  { onewire with state := new_state, timestamp := now }

/-- set_flag from oneWire.c: flag_reg |= (1 << flag_bit) for flag_bit < 8. -/
def set_flag (onewire : OneWireDriver) (flag_bit : OneWireFlags) : OneWireDriver :=
  if flag_bit.toNat < 8 then
    { onewire with flag_reg := (onewire.flag_reg ||| (1 <<< flag_bit.toNat)) % UINT8_MOD }
  else onewire

/-- reset_flag from oneWire.c: flag_reg &= ~(1 << flag_bit) for
flag_bit < 8; the complement acts on the 8 bits of flag_reg. -/
def reset_flag (onewire : OneWireDriver) (flag_bit : OneWireFlags) : OneWireDriver :=
  if flag_bit.toNat < 8 then
    { onewire with flag_reg :=
        onewire.flag_reg &&& ((UINT8_MOD - 1) ^^^ ((1 <<< flag_bit.toNat) % UINT8_MOD)) }
  else onewire

/-- get_flag from oneWire.c: (flag_reg >> flag_bit) & 1, or 0 for an
out-of-range flag. -/
def get_flag (onewire : OneWireDriver) (flag_bit : OneWireFlags) : Nat :=
  if flag_bit.toNat < 8 then (onewire.flag_reg >>> flag_bit.toNat) &&& 1
  else 0

/-- store_read_bit from oneWire.c: set or clear the rx_byte bit at
bit_index.  The set branch truncates to uint8_t on assignment; the clear
branch masks with the low 8 bits of ~(1 << bit_index). -/
def store_read_bit (onewire : OneWireDriver) (value : Bool) : OneWireDriver :=
  if value then
    { onewire with rx_byte := (onewire.rx_byte ||| (1 <<< onewire.bit_index)) % UINT8_MOD }
  else
    { onewire with rx_byte :=
        onewire.rx_byte &&& ((UINT8_MOD - 1) ^^^ ((1 <<< onewire.bit_index) % UINT8_MOD)) }

/-- set_write_init_state from oneWire.c: refresh the timestamp and enter
the write-high or write-low family depending on the bit value. -/
def set_write_init_state (now : Nat) (onewire : OneWireDriver) (bit : Nat) :
    OneWireDriver :=
  { onewire with
      timestamp := now,
      state := if bit ≠ 0 then ONEWIRE_STATE_WRITE_HIGH_INIT
               else ONEWIRE_STATE_WRITE_LOW_INIT }

/-- handle_write_bit_done_state from oneWire.c: advance bit_index
(uint8_t increment); after the 8th bit return to IDLE, clear bit_index
and rx_byte and latch FLAG_BYTE_SEND, otherwise start the next bit slot
chosen by the bit at bit_index in tx_byte. -/
def handle_write_bit_done_state (now : Nat) (onewire : OneWireDriver) :
    OneWireDriver :=
  let d := { onewire with bit_index := (onewire.bit_index + 1) % UINT8_MOD }
  if 8 ≤ d.bit_index then
    let d := set_state now d ONEWIRE_STATE_IDLE
    let d := { d with bit_index := 0, rx_byte := 0 }
    set_flag d FLAG_BYTE_SEND
  else
    set_write_init_state now d ((d.tx_byte >>> d.bit_index) &&& 1)

/-- onewire_init from oneWire.c, minus the pin/port binding and the
electrical pin configuration (hardware only). -/
def onewire_init : OneWireDriver :=
  { state := ONEWIRE_STATE_IDLE
    tx_byte := 0
    rx_byte := 0
    bit_index := 0
    timestamp := 0
    flag_reg := 0 }

/-- onewire_write_byte from oneWire.c: load tx_byte, reset bit_index and
enter the write family selected by bit 0 of the data byte. -/
def onewire_write_byte (now : Nat) (onewire : OneWireDriver) (data : Nat) :
    OneWireDriver :=
  let data := data % UINT8_MOD
  let d := { onewire with tx_byte := data, bit_index := 0 }
  set_write_init_state now d (data &&& 1)

/-- onewire_process from oneWire.c.  Inputs: tick rate hz (for
pdMS_TO_TICKS), current tick count now, current pin level pin
(true = high), the driver instance and the global sampled_bus_bit g.
Returns the new instance, the new sampled_bus_bit and the bus actions
performed during the call, in order.  The RESET_SAMPLE_BUS case has no
break after its not-expired branch in the C source and falls through
into the WRITE_HIGH_INIT case; the model reproduces that fall-through.
IDLE, ERROR and RESET_DONE have no case and land in the default branch. -/
def onewire_process (hz now : Nat) (pin : Bool) (onewire : OneWireDriver)
    (g : Bool) : OneWireDriver × Bool × List OneWireAction :=
  match onewire.state with
  | ONEWIRE_STATE_RESET_INIT =>
      if is_time_expired hz now onewire (pdMS_TO_TICKS hz RESET_INIT_DELAY) then
        (set_state now onewire ONEWIRE_STATE_RESET_DRIVE_BUS_LOW, g, [.driveLow])
      else (onewire, g, [])
  | ONEWIRE_STATE_RESET_DRIVE_BUS_LOW =>
      if is_time_expired hz now onewire (pdMS_TO_TICKS hz RESET_DRIVE_BUS_LOW_DELAY) then
        (set_state now onewire ONEWIRE_STATE_RESET_RELEASE_BUS, g, [.release])
      else (onewire, g, [])
  | ONEWIRE_STATE_RESET_RELEASE_BUS =>
      if is_time_expired hz now onewire (pdMS_TO_TICKS hz RESET_RELEASE_BUS_DELAY) then
        (reset_flag (set_state now onewire ONEWIRE_STATE_RESET_SAMPLE_BUS)
          FLAG_PRESENCE_DETECTED, g, [])
      else (onewire, g, [])
  | ONEWIRE_STATE_RESET_SAMPLE_BUS =>
      if ¬ is_time_expired hz now onewire (pdMS_TO_TICKS hz RESET_SAMPLE_BUS_DELAY) then
        -- read_pin, maybe latch presence, then fall through (missing
        -- break) into the WRITE_HIGH_INIT case body below
        let d := if pin = false then set_flag onewire FLAG_PRESENCE_DETECTED
                 else onewire
        (set_state now d ONEWIRE_STATE_WRITE_HIGH_DRIVE_BUS_LOW, g,
          [.sample, .driveLow])
      else
        let d := set_state now onewire ONEWIRE_STATE_RESET_DONE
        let d := if get_flag d FLAG_PRESENCE_DETECTED ≠ 0 then set_flag d FLAG_ERROR
                 else d
        (d, g, [])
  | ONEWIRE_STATE_WRITE_HIGH_INIT =>
      (set_state now onewire ONEWIRE_STATE_WRITE_HIGH_DRIVE_BUS_LOW, g, [.driveLow])
  | ONEWIRE_STATE_WRITE_HIGH_DRIVE_BUS_LOW =>
      if is_time_expired hz now onewire (pdMS_TO_TICKS hz WRITE_1_LOW_DELAY) then
        (set_state now onewire ONEWIRE_STATE_WRITE_HIGH_RELEASE_BUS, g, [.release])
      else (onewire, g, [])
  | ONEWIRE_STATE_WRITE_HIGH_RELEASE_BUS =>
      if is_time_expired hz now onewire (pdMS_TO_TICKS hz WRITE_1_RELEASE_BUS_DELAY) then
        (set_state now onewire ONEWIRE_STATE_WRITE_HIGH_DONE, g, [])
      else (onewire, g, [])
  | ONEWIRE_STATE_WRITE_LOW_INIT =>
      (set_state now onewire ONEWIRE_STATE_WRITE_LOW_DRIVE_BUS_LOW, g, [.driveLow])
  | ONEWIRE_STATE_WRITE_LOW_DRIVE_BUS_LOW =>
      if is_time_expired hz now onewire (pdMS_TO_TICKS hz WRITE_0_LOW_DELAY) then
        (set_state now onewire ONEWIRE_STATE_WRITE_LOW_RELEASE_BUS, g, [.release])
      else (onewire, g, [])
  | ONEWIRE_STATE_WRITE_LOW_RELEASE_BUS =>
      if is_time_expired hz now onewire (pdMS_TO_TICKS hz WRITE_0_RELEASE_BUS_DELAY) then
        (set_state now onewire ONEWIRE_STATE_WRITE_LOW_DONE, g, [])
      else (onewire, g, [])
  | ONEWIRE_STATE_WRITE_HIGH_DONE =>
      (handle_write_bit_done_state now onewire, g, [])
  | ONEWIRE_STATE_WRITE_LOW_DONE =>
      (handle_write_bit_done_state now onewire, g, [])
  | ONEWIRE_STATE_READ_INIT =>
      (set_state now onewire ONEWIRE_STATE_READ_DRIVE_BUS_LOW, g, [.driveLow])
  | ONEWIRE_STATE_READ_DRIVE_BUS_LOW =>
      if is_time_expired hz now onewire (pdMS_TO_TICKS hz WRITE_1_LOW_DELAY) then
        (set_state now onewire ONEWIRE_STATE_READ_RELEASE_BUS, g, [.release])
      else (onewire, g, [])
  | ONEWIRE_STATE_READ_RELEASE_BUS =>
      if is_time_expired hz now onewire (pdMS_TO_TICKS hz READ_RELEASE_BUS_DELAY) then
        (set_state now onewire ONEWIRE_STATE_READ_SAMPLE_BUS, g, [])
      else (onewire, g, [])
  | ONEWIRE_STATE_READ_SAMPLE_BUS =>
      if ¬ is_time_expired hz now onewire (pdMS_TO_TICKS hz READ_SAMPLE_DELAY) then
        (onewire, if pin = false then false else g, [.sample])
      else
        (set_state now (store_read_bit onewire g) ONEWIRE_STATE_READ_DONE, g, [])
  | ONEWIRE_STATE_READ_DONE =>
      let d := { onewire with bit_index := (onewire.bit_index + 1) % UINT8_MOD }
      -- sampled_bus_bit is reset to GPIO_PIN_SET here
      if 8 ≤ d.bit_index then
        let d := set_flag d FLAG_BYTE_RECEIVED
        let d := { d with bit_index := 0 }
        (set_state now d ONEWIRE_STATE_IDLE, true, [])
      else
        (set_state now d ONEWIRE_STATE_READ_INIT, true, [])
  | ONEWIRE_STATE_IDLE | ONEWIRE_STATE_ERROR | ONEWIRE_STATE_RESET_DONE =>
      -- default: state not defined
      (set_flag (set_state now onewire ONEWIRE_STATE_ERROR) FLAG_ERROR, g, [])

/-- Iterate onewire_process over a list of (tick count, pin level) calls,
threading the driver and the global sampled bit and concatenating the
emitted bus actions. -/
def processRun (hz : Nat) : List (Nat × Bool) → OneWireDriver → Bool →
    OneWireDriver × Bool × List OneWireAction
  | [], d, g => (d, g, [])
  | c :: rest, d, g =>
      let r := onewire_process hz c.1 c.2 d g
      let r2 := processRun hz rest r.1 r.2.1
      (r2.1, r2.2.1, r.2.2 ++ r2.2.2)

/-- States whose case in onewire_process only waits on a deadline and,
before it expires, performs no bus action and changes nothing: all timed
phases except the two sample windows. -/
def pureWait : OneWireState → Bool
  | ONEWIRE_STATE_RESET_INIT => true
  | ONEWIRE_STATE_RESET_DRIVE_BUS_LOW => true
  | ONEWIRE_STATE_RESET_RELEASE_BUS => true
  | ONEWIRE_STATE_WRITE_HIGH_DRIVE_BUS_LOW => true
  | ONEWIRE_STATE_WRITE_HIGH_RELEASE_BUS => true
  | ONEWIRE_STATE_WRITE_LOW_DRIVE_BUS_LOW => true
  | ONEWIRE_STATE_WRITE_LOW_RELEASE_BUS => true
  | ONEWIRE_STATE_READ_DRIVE_BUS_LOW => true
  | ONEWIRE_STATE_READ_RELEASE_BUS => true
  | _ => false

/-- Timing constant (microseconds) that the onewire_process case for a
timed phase hands to is_time_expired (wrapped in one pdMS_TO_TICKS at
the call site), or none for the untimed states. -/
def timedConst : OneWireState → Option Nat
  | ONEWIRE_STATE_RESET_INIT => some RESET_INIT_DELAY
  | ONEWIRE_STATE_RESET_DRIVE_BUS_LOW => some RESET_DRIVE_BUS_LOW_DELAY
  | ONEWIRE_STATE_RESET_RELEASE_BUS => some RESET_RELEASE_BUS_DELAY
  | ONEWIRE_STATE_RESET_SAMPLE_BUS => some RESET_SAMPLE_BUS_DELAY
  | ONEWIRE_STATE_WRITE_HIGH_DRIVE_BUS_LOW => some WRITE_1_LOW_DELAY
  | ONEWIRE_STATE_WRITE_HIGH_RELEASE_BUS => some WRITE_1_RELEASE_BUS_DELAY
  | ONEWIRE_STATE_WRITE_LOW_DRIVE_BUS_LOW => some WRITE_0_LOW_DELAY
  | ONEWIRE_STATE_WRITE_LOW_RELEASE_BUS => some WRITE_0_RELEASE_BUS_DELAY
  | ONEWIRE_STATE_READ_DRIVE_BUS_LOW => some WRITE_1_LOW_DELAY
  | ONEWIRE_STATE_READ_RELEASE_BUS => some READ_RELEASE_BUS_DELAY
  | ONEWIRE_STATE_READ_SAMPLE_BUS => some READ_SAMPLE_DELAY
  | _ => none

/-- Same constant as timedConst but as a total function, 0 elsewhere. -/
def waitConst (s : OneWireState) : Nat := (timedConst s).getD 0

/-- Whether a state is one of the eleven timed phases. -/
def isTimed (s : OneWireState) : Bool := (timedConst s).isSome

/-- Designated successor of each timed phase: the state its case enters
when its deadline has expired. -/
def phaseSucc : OneWireState → OneWireState
  | ONEWIRE_STATE_RESET_INIT => ONEWIRE_STATE_RESET_DRIVE_BUS_LOW
  | ONEWIRE_STATE_RESET_DRIVE_BUS_LOW => ONEWIRE_STATE_RESET_RELEASE_BUS
  | ONEWIRE_STATE_RESET_RELEASE_BUS => ONEWIRE_STATE_RESET_SAMPLE_BUS
  | ONEWIRE_STATE_RESET_SAMPLE_BUS => ONEWIRE_STATE_RESET_DONE
  | ONEWIRE_STATE_WRITE_HIGH_DRIVE_BUS_LOW => ONEWIRE_STATE_WRITE_HIGH_RELEASE_BUS
  | ONEWIRE_STATE_WRITE_HIGH_RELEASE_BUS => ONEWIRE_STATE_WRITE_HIGH_DONE
  | ONEWIRE_STATE_WRITE_LOW_DRIVE_BUS_LOW => ONEWIRE_STATE_WRITE_LOW_RELEASE_BUS
  | ONEWIRE_STATE_WRITE_LOW_RELEASE_BUS => ONEWIRE_STATE_WRITE_LOW_DONE
  | ONEWIRE_STATE_READ_DRIVE_BUS_LOW => ONEWIRE_STATE_READ_RELEASE_BUS
  | ONEWIRE_STATE_READ_RELEASE_BUS => ONEWIRE_STATE_READ_SAMPLE_BUS
  | ONEWIRE_STATE_READ_SAMPLE_BUS => ONEWIRE_STATE_READ_DONE
  | _ => ONEWIRE_STATE_ERROR

/-- Families of bit slots started while driving a byte write: true for a
visit to the write-high INIT state, false for write-low INIT.  The
driver is polled with a schedule generous enough that every deadline has
expired by the next call (tick rate 1000 Hz, 1000 ticks between calls),
with the bus held high. -/
def writeSlotsAux (hz : Nat) : Nat → Nat → OneWireDriver → Bool → List Bool
  | 0, _, _, _ => []
  | fuel + 1, now, d, g =>
      let head : List Bool :=
        if d.state = ONEWIRE_STATE_WRITE_HIGH_INIT then [true]
        else if d.state = ONEWIRE_STATE_WRITE_LOW_INIT then [false]
        else []
      let r := onewire_process hz now true d g
      head ++ writeSlotsAux hz fuel (now + 1000) r.1 r.2.1

/-- Sequence of bit-slot families transmitted for a byte write of v,
collected over 32 process calls (4 per bit slot). -/
def writeSlots (v : Nat) : List Bool :=
  writeSlotsAux 1000 32 1000 (onewire_write_byte 0 onewire_init v) true

/-! Helper lemmas about the flag register and record projections. -/

lemma shiftRight_and_one (y k : Nat) : (y >>> k) &&& 1 = if y.testBit k then 1 else 0 := by
  rw [Nat.and_one_is_mod, Nat.shiftRight_eq_div_pow, Nat.testBit_to_div_mod]
  rcases Nat.mod_two_eq_zero_or_one (y / 2 ^ k) with h | h <;> simp [h]

lemma OneWireFlags.toNat_lt_eight (f : OneWireFlags) : f.toNat < 8 := by
  cases f <;> simp [OneWireFlags.toNat]

@[simp] lemma set_flag_state (d : OneWireDriver) (f : OneWireFlags) :
    (set_flag d f).state = d.state := by
  simp [set_flag, OneWireFlags.toNat_lt_eight]

@[simp] lemma set_flag_bit_index (d : OneWireDriver) (f : OneWireFlags) :
    (set_flag d f).bit_index = d.bit_index := by
  simp [set_flag, OneWireFlags.toNat_lt_eight]

@[simp] lemma set_flag_rx_byte (d : OneWireDriver) (f : OneWireFlags) :
    (set_flag d f).rx_byte = d.rx_byte := by
  simp [set_flag, OneWireFlags.toNat_lt_eight]

@[simp] lemma set_flag_tx_byte (d : OneWireDriver) (f : OneWireFlags) :
    (set_flag d f).tx_byte = d.tx_byte := by
  simp [set_flag, OneWireFlags.toNat_lt_eight]

@[simp] lemma set_state_flag_reg (now : Nat) (d : OneWireDriver) (s : OneWireState) :
    (set_state now d s).flag_reg = d.flag_reg := by
  simp [set_state]

lemma get_flag_one_of_testBit (d : OneWireDriver) (f : OneWireFlags)
    (h : d.flag_reg.testBit f.toNat = true) : get_flag d f = 1 := by
  have hf := f.toNat_lt_eight
  unfold get_flag
  rw [if_pos hf, Nat.and_one_is_mod, Nat.shiftRight_eq_div_pow]
  rw [Nat.testBit_to_div_mod] at h
  exact of_decide_eq_true h

lemma get_flag_zero_of_testBit (d : OneWireDriver) (f : OneWireFlags)
    (h : d.flag_reg.testBit f.toNat = false) : get_flag d f = 0 := by
  have hf := f.toNat_lt_eight
  unfold get_flag
  rw [if_pos hf, Nat.and_one_is_mod, Nat.shiftRight_eq_div_pow]
  rw [Nat.testBit_to_div_mod] at h
  have h2 := of_decide_eq_false h
  omega

lemma testBit_set_flag_self (d : OneWireDriver) (f : OneWireFlags) :
    (set_flag d f).flag_reg.testBit f.toNat = true := by
  have hf := f.toNat_lt_eight
  unfold set_flag
  rw [if_pos hf]
  show ((d.flag_reg ||| 1 <<< f.toNat) % UINT8_MOD).testBit f.toNat = true
  rw [show UINT8_MOD = 2 ^ 8 from rfl, Nat.testBit_mod_two_pow]
  simp [hf]

lemma get_flag_set_flag_self (d : OneWireDriver) (f : OneWireFlags) :
    get_flag (set_flag d f) f = 1 :=
  get_flag_one_of_testBit _ _ (testBit_set_flag_self d f)

/-- C1: the claim says a process call from IDLE is a no-op, but IDLE has no
case in the switch of onewire_process and lands in the default branch, which
forces the state to ERROR and latches FLAG_ERROR.  This theorem evaluates
the code at the failing input: every instance whose state is IDLE (the state
onewire_init establishes) is moved to ERROR with the error flag set by a
single process call. -/
theorem idle_process_latches_error (hz now : Nat) (pin g : Bool)
    (tx rx bi ts fr : Nat) :
    onewire_init.state = ONEWIRE_STATE_IDLE ∧
    (onewire_process hz now pin ⟨ONEWIRE_STATE_IDLE, tx, rx, bi, ts, fr⟩ g).1.state =
      ONEWIRE_STATE_ERROR ∧
    get_flag (onewire_process hz now pin ⟨ONEWIRE_STATE_IDLE, tx, rx, bi, ts, fr⟩ g).1
      FLAG_ERROR = 1 := by
  refine ⟨rfl, ?_, ?_⟩
  · simp [onewire_process, set_state]
  · exact get_flag_set_flag_self _ _

/-- C10: RESET_DONE has no case in the switch of onewire_process; the default
branch runs, so the poll after a completed reset transitions every instance
to ERROR and sets the error flag. -/
theorem reset_done_next_poll_errors (hz now : Nat) (pin g : Bool)
    (tx rx bi ts fr : Nat) :
    (onewire_process hz now pin ⟨ONEWIRE_STATE_RESET_DONE, tx, rx, bi, ts, fr⟩ g).1.state =
      ONEWIRE_STATE_ERROR ∧
    get_flag (onewire_process hz now pin ⟨ONEWIRE_STATE_RESET_DONE, tx, rx, bi, ts, fr⟩ g).1
      FLAG_ERROR = 1 := by
  refine ⟨?_, ?_⟩
  · simp [onewire_process, set_state]
  · exact get_flag_set_flag_self _ _

/-- C3: when the reset sample window expires, oneWire.c sets FLAG_ERROR
exactly when FLAG_PRESENCE_DETECTED is latched, the opposite of the claimed
polarity (presence implies no error).  Evaluated at the failing input: an
instance (timestamp 0, tick rate 1000) polled at tick 500, after the
410-tick window, with presence latched (flag_reg bit 1 set) ends in
RESET_DONE with FLAG_ERROR set; the same instance without presence ends in
RESET_DONE with FLAG_ERROR clear. -/
theorem reset_presence_polarity_inverted :
    ((onewire_process 1000 500 true
        ⟨ONEWIRE_STATE_RESET_SAMPLE_BUS, 0, 0, 0, 0, 2⟩ true).1.state =
      ONEWIRE_STATE_RESET_DONE ∧
     get_flag (onewire_process 1000 500 true
        ⟨ONEWIRE_STATE_RESET_SAMPLE_BUS, 0, 0, 0, 0, 2⟩ true).1 FLAG_ERROR = 1) ∧
    ((onewire_process 1000 500 true
        ⟨ONEWIRE_STATE_RESET_SAMPLE_BUS, 0, 0, 0, 0, 0⟩ true).1.state =
      ONEWIRE_STATE_RESET_DONE ∧
     get_flag (onewire_process 1000 500 true
        ⟨ONEWIRE_STATE_RESET_SAMPLE_BUS, 0, 0, 0, 0, 0⟩ true).1 FLAG_ERROR = 0) := by
  decide

/-- C4: the RESET_SAMPLE_BUS case of onewire_process has no break after its
not-expired branch and falls through into the WRITE_HIGH_INIT case, so while
the reset sample window is still open a single call samples the pin, drives
the bus low and jumps from the reset family straight into
WRITE_HIGH_DRIVE_BUS_LOW, skipping the declared phase order.  Evaluated at
the failing input (timestamp 0, tick rate 1000, polled at tick 100 inside
the 410-tick window). -/
theorem reset_sample_falls_through_to_write :
    is_time_expired 1000 100 ⟨ONEWIRE_STATE_RESET_SAMPLE_BUS, 0, 0, 0, 0, 0⟩
      (pdMS_TO_TICKS 1000 RESET_SAMPLE_BUS_DELAY) = false ∧
    (onewire_process 1000 100 true
        ⟨ONEWIRE_STATE_RESET_SAMPLE_BUS, 0, 0, 0, 0, 0⟩ true).1.state =
      ONEWIRE_STATE_WRITE_HIGH_DRIVE_BUS_LOW ∧
    (onewire_process 1000 100 true
        ⟨ONEWIRE_STATE_RESET_SAMPLE_BUS, 0, 0, 0, 0, 0⟩ true).2.2 =
      [OneWireAction.sample, OneWireAction.driveLow] := by
  decide

/-- C2 counterexample: in state RESET_SAMPLE_BUS with the deadline not yet
elapsed (timestamp 0, tick rate 1000, polled at tick 200 inside the 410-tick
window) a process call is not a no-op: it performs bus actions and changes
the state, so the claim quantified over every state and timed phase is
false. -/
theorem reset_sample_window_call_not_noop :
    is_time_expired 1000 200 ⟨ONEWIRE_STATE_RESET_SAMPLE_BUS, 0, 0, 0, 0, 0⟩
      (pdMS_TO_TICKS 1000 RESET_SAMPLE_BUS_DELAY) = false ∧
    (onewire_process 1000 200 true
        ⟨ONEWIRE_STATE_RESET_SAMPLE_BUS, 0, 0, 0, 0, 0⟩ true).1.state ≠
      ONEWIRE_STATE_RESET_SAMPLE_BUS ∧
    (onewire_process 1000 200 true
        ⟨ONEWIRE_STATE_RESET_SAMPLE_BUS, 0, 0, 0, 0, 0⟩ true).2.2 ≠ [] := by
  decide

lemma pure_wait_step_noop (hz now : Nat) (pin : Bool) (d : OneWireDriver) (g : Bool)
    (hw : pureWait d.state = true)
    (hne : is_time_expired hz now d (pdMS_TO_TICKS hz (waitConst d.state)) = false) :
    onewire_process hz now pin d g = (d, g, []) := by
  obtain ⟨st, tx, rx, bi, ts, fr⟩ := d
  cases st <;> simp_all [pureWait, waitConst, timedConst, onewire_process]

/-- C2 (amended): for every timed phase other than the two sample windows —
that is, every state with pureWait true — any number of process calls made
before the deadline elapses performs no bus action and leaves the instance
(state, buffers, bit index, timestamp, flags) and the shared sampled bit
unchanged. -/
theorem pure_wait_phases_idempotent (hz : Nat) (d : OneWireDriver) (g : Bool)
    (calls : List (Nat × Bool)) (hw : pureWait d.state = true)
    (hne : ∀ c ∈ calls,
      is_time_expired hz c.1 d (pdMS_TO_TICKS hz (waitConst d.state)) = false) :
    processRun hz calls d g = (d, g, []) := by
  induction calls with
  | nil => simp [processRun]
  | cons c rest ih =>
      have h1 := pure_wait_step_noop hz c.1 c.2 d g hw (hne c (by simp))
      have h2 := ih (fun s hs => hne s (by simp [hs]))
      simp [processRun, h1, h2]

/-- C2 witness: three polls of a write-1 drive-low phase (6-tick deadline,
timestamp 0) at ticks 1, 3 and 5 change nothing and emit no action. -/
theorem pure_wait_phases_idempotent_witness :
    processRun 1000 [(1, true), (3, false), (5, true)]
      ⟨ONEWIRE_STATE_WRITE_HIGH_DRIVE_BUS_LOW, 0, 0, 0, 0, 0⟩ true =
    (⟨ONEWIRE_STATE_WRITE_HIGH_DRIVE_BUS_LOW, 0, 0, 0, 0, 0⟩, true, []) :=
  pure_wait_phases_idempotent 1000 _ true _ (by decide) (by decide)

@[simp] lemma state_of_ite (c : Prop) [Decidable c] (a b : OneWireDriver) :
    (if c then a else b).state = if c then a.state else b.state :=
  apply_ite OneWireDriver.state c a b

lemma testBit_set_bit (x k : Nat) (hk : k < 8) :
    ((x ||| 1 <<< k) % UINT8_MOD).testBit k = true := by
  rw [show UINT8_MOD = 2 ^ 8 from rfl, Nat.testBit_mod_two_pow]
  simp [hk]

lemma testBit_clear_bit (x k : Nat) (hk : k < 8) :
    (x &&& ((UINT8_MOD - 1) ^^^ ((1 <<< k) % UINT8_MOD))).testBit k = false := by
  rw [show UINT8_MOD = 2 ^ 8 from rfl, Nat.testBit_and, Nat.testBit_xor,
    Nat.testBit_mod_two_pow, Nat.testBit_two_pow_sub_one]
  simp [hk]

set_option maxRecDepth 10000 in
set_option maxHeartbeats 4000000 in
/-- C5: for every 8-bit value v, a write_byte of v followed by polls of
onewire_process transmits exactly 8 bit slots, least-significant bit first:
the i-th slot started is in the write-high family exactly when bit i of v is
set (writeSlots records true for each visit to WRITE_HIGH_INIT and false for
each visit to WRITE_LOW_INIT). -/
theorem write_byte_transmits_lsb_first :
    ∀ v : Nat, v < 256 →
      writeSlots v = (List.range 8).map v.testBit ∧ (writeSlots v).length = 8 := by
  decide

set_option maxRecDepth 10000 in
set_option maxHeartbeats 1000000 in
/-- C5 witness: writing 181 = 0b10110101 transmits the slot families
true, false, true, false, true, true, false, true. -/
theorem write_byte_transmits_lsb_first_witness :
    181 < 256 ∧
      (writeSlots 181 = (List.range 8).map (Nat.testBit 181) ∧
       (writeSlots 181).length = 8) :=
  ⟨by decide, write_byte_transmits_lsb_first 181 (by decide)⟩

/-- C6: processing the DONE state of the 8th bit of a byte write (bit_index
7, in either the write-high or the write-low family) returns the machine to
IDLE with bit_index 0, rx_byte cleared and FLAG_BYTE_SEND latched. -/
theorem write_done_eighth_bit_finalizes (hz now : Nat) (pin g : Bool)
    (tx rx ts fr : Nat) :
    ((onewire_process hz now pin ⟨ONEWIRE_STATE_WRITE_HIGH_DONE, tx, rx, 7, ts, fr⟩ g).1.state =
        ONEWIRE_STATE_IDLE ∧
     (onewire_process hz now pin ⟨ONEWIRE_STATE_WRITE_HIGH_DONE, tx, rx, 7, ts, fr⟩ g).1.bit_index = 0 ∧
     (onewire_process hz now pin ⟨ONEWIRE_STATE_WRITE_HIGH_DONE, tx, rx, 7, ts, fr⟩ g).1.rx_byte = 0 ∧
     get_flag (onewire_process hz now pin ⟨ONEWIRE_STATE_WRITE_HIGH_DONE, tx, rx, 7, ts, fr⟩ g).1
       FLAG_BYTE_SEND = 1) ∧
    ((onewire_process hz now pin ⟨ONEWIRE_STATE_WRITE_LOW_DONE, tx, rx, 7, ts, fr⟩ g).1.state =
        ONEWIRE_STATE_IDLE ∧
     (onewire_process hz now pin ⟨ONEWIRE_STATE_WRITE_LOW_DONE, tx, rx, 7, ts, fr⟩ g).1.bit_index = 0 ∧
     (onewire_process hz now pin ⟨ONEWIRE_STATE_WRITE_LOW_DONE, tx, rx, 7, ts, fr⟩ g).1.rx_byte = 0 ∧
     get_flag (onewire_process hz now pin ⟨ONEWIRE_STATE_WRITE_LOW_DONE, tx, rx, 7, ts, fr⟩ g).1
       FLAG_BYTE_SEND = 1) := by
  refine ⟨⟨rfl, rfl, rfl, ?_⟩, ⟨rfl, rfl, rfl, ?_⟩⟩
  · exact get_flag_one_of_testBit
      (onewire_process hz now pin ⟨ONEWIRE_STATE_WRITE_HIGH_DONE, tx, rx, 7, ts, fr⟩ g).1
      FLAG_BYTE_SEND (testBit_set_bit fr 3 (by omega))
  · exact get_flag_one_of_testBit
      (onewire_process hz now pin ⟨ONEWIRE_STATE_WRITE_LOW_DONE, tx, rx, 7, ts, fr⟩ g).1
      FLAG_BYTE_SEND (testBit_set_bit fr 3 (by omega))

/-- C8: processing READ_DONE advances bit_index by one; with fewer than 8
bits assembled the machine re-enters READ_INIT, and on the 8th bit it
latches FLAG_BYTE_RECEIVED, resets bit_index to 0 and returns to IDLE. -/
theorem read_done_advances_bit_index (hz now : Nat) (pin g : Bool)
    (tx rx ts fr bi : Nat) (hbi : bi < 8) :
    (bi < 7 →
      (onewire_process hz now pin ⟨ONEWIRE_STATE_READ_DONE, tx, rx, bi, ts, fr⟩ g).1.state =
        ONEWIRE_STATE_READ_INIT ∧
      (onewire_process hz now pin ⟨ONEWIRE_STATE_READ_DONE, tx, rx, bi, ts, fr⟩ g).1.bit_index =
        bi + 1) ∧
    (bi = 7 →
      (onewire_process hz now pin ⟨ONEWIRE_STATE_READ_DONE, tx, rx, bi, ts, fr⟩ g).1.state =
        ONEWIRE_STATE_IDLE ∧
      (onewire_process hz now pin ⟨ONEWIRE_STATE_READ_DONE, tx, rx, bi, ts, fr⟩ g).1.bit_index = 0 ∧
      get_flag (onewire_process hz now pin ⟨ONEWIRE_STATE_READ_DONE, tx, rx, bi, ts, fr⟩ g).1
        FLAG_BYTE_RECEIVED = 1) := by
  constructor
  · intro h7
    have hm : (bi + 1) % UINT8_MOD = bi + 1 :=
      Nat.mod_eq_of_lt (by unfold UINT8_MOD; omega)
    simp [onewire_process, set_state, set_write_init_state, hm,
      show ¬ (8 ≤ bi + 1) from by omega]
  · intro h7
    subst h7
    refine ⟨rfl, rfl, ?_⟩
    exact get_flag_one_of_testBit
      (onewire_process hz now pin ⟨ONEWIRE_STATE_READ_DONE, tx, rx, 7, ts, fr⟩ g).1
      FLAG_BYTE_RECEIVED (testBit_set_bit fr 2 (by omega))

/-- C8 witness: instantiated at bit_index 7 with concrete fields. -/
theorem read_done_advances_bit_index_witness :
    ((7 : Nat) < 7 →
      (onewire_process 1000 9999 true ⟨ONEWIRE_STATE_READ_DONE, 0, 0, 7, 0, 0⟩ true).1.state =
        ONEWIRE_STATE_READ_INIT ∧
      (onewire_process 1000 9999 true ⟨ONEWIRE_STATE_READ_DONE, 0, 0, 7, 0, 0⟩ true).1.bit_index =
        7 + 1) ∧
    ((7 : Nat) = 7 →
      (onewire_process 1000 9999 true ⟨ONEWIRE_STATE_READ_DONE, 0, 0, 7, 0, 0⟩ true).1.state =
        ONEWIRE_STATE_IDLE ∧
      (onewire_process 1000 9999 true ⟨ONEWIRE_STATE_READ_DONE, 0, 0, 7, 0, 0⟩ true).1.bit_index = 0 ∧
      get_flag (onewire_process 1000 9999 true ⟨ONEWIRE_STATE_READ_DONE, 0, 0, 7, 0, 0⟩ true).1
        FLAG_BYTE_RECEIVED = 1) :=
  read_done_advances_bit_index 1000 9999 true true 0 0 0 0 7 (by decide)

lemma store_read_bit_false (d : OneWireDriver) :
    (store_read_bit d false).rx_byte =
      d.rx_byte &&& ((UINT8_MOD - 1) ^^^ ((1 <<< d.bit_index) % UINT8_MOD)) := rfl

lemma store_read_bit_true (d : OneWireDriver) :
    (store_read_bit d true).rx_byte =
      (d.rx_byte ||| (1 <<< d.bit_index)) % UINT8_MOD := rfl

lemma processRun_sample_window (hz : Nat) (d : OneWireDriver)
    (hst : d.state = ONEWIRE_STATE_READ_SAMPLE_BUS) (samples : List (Nat × Bool)) :
    ∀ g : Bool,
      (∀ s ∈ samples,
        is_time_expired hz s.1 d (pdMS_TO_TICKS hz READ_SAMPLE_DELAY) = false) →
      processRun hz samples d g =
        (d, g && samples.all (fun s => s.2),
          List.replicate samples.length OneWireAction.sample) := by
  induction samples with
  | nil => intro g _; simp [processRun]
  | cons c rest ih =>
      intro g hns
      have h1 : is_time_expired hz c.1 d (pdMS_TO_TICKS hz READ_SAMPLE_DELAY) = false :=
        hns c (List.mem_cons_self c rest)
      have hstep : onewire_process hz c.1 c.2 d g =
          (d, if c.2 = false then false else g, [OneWireAction.sample]) := by
        simp [onewire_process, hst, h1]
      have hrest := ih (if c.2 = false then false else g)
        (fun s hs => hns s (List.mem_cons_of_mem c hs))
      simp only [processRun, hstep, hrest]
      cases hc : c.2 <;> simp [hc, List.replicate_succ]

/-- C7: starting a bit-read sample window (state READ_SAMPLE_BUS, shared
sampled bit at its GPIO_PIN_SET rest value) and polling any number of times
before the window deadline with given pin levels, then once after it, ends
in READ_DONE with the bit recorded into rx_byte at position bit_index equal
to 1 exactly when every in-window sample saw the pin high; any low sample
in the window makes the recorded bit 0. -/
theorem read_bit_sample_window_records (hz tx rx bi ts fr : Nat)
    (samples : List (Nat × Bool)) (tf : Nat) (pinf : Bool) (hbi : bi < 8)
    (hns : ∀ s ∈ samples,
      is_time_expired hz s.1 ⟨ONEWIRE_STATE_READ_SAMPLE_BUS, tx, rx, bi, ts, fr⟩
        (pdMS_TO_TICKS hz READ_SAMPLE_DELAY) = false)
    (hf : is_time_expired hz tf ⟨ONEWIRE_STATE_READ_SAMPLE_BUS, tx, rx, bi, ts, fr⟩
        (pdMS_TO_TICKS hz READ_SAMPLE_DELAY) = true) :
    (onewire_process hz tf pinf
        (processRun hz samples ⟨ONEWIRE_STATE_READ_SAMPLE_BUS, tx, rx, bi, ts, fr⟩ true).1
        (processRun hz samples ⟨ONEWIRE_STATE_READ_SAMPLE_BUS, tx, rx, bi, ts, fr⟩ true).2.1).1.state =
      ONEWIRE_STATE_READ_DONE ∧
    (onewire_process hz tf pinf
        (processRun hz samples ⟨ONEWIRE_STATE_READ_SAMPLE_BUS, tx, rx, bi, ts, fr⟩ true).1
        (processRun hz samples ⟨ONEWIRE_STATE_READ_SAMPLE_BUS, tx, rx, bi, ts, fr⟩ true).2.1).1.rx_byte.testBit
      bi = samples.all (fun s => s.2) := by
  have hrun := processRun_sample_window hz
    ⟨ONEWIRE_STATE_READ_SAMPLE_BUS, tx, rx, bi, ts, fr⟩ rfl samples true hns
  rw [hrun]
  dsimp only
  simp only [Bool.true_and]
  have hstep : onewire_process hz tf pinf
      ⟨ONEWIRE_STATE_READ_SAMPLE_BUS, tx, rx, bi, ts, fr⟩ (samples.all (fun s => s.2)) =
      (set_state tf (store_read_bit ⟨ONEWIRE_STATE_READ_SAMPLE_BUS, tx, rx, bi, ts, fr⟩
          (samples.all (fun s => s.2))) ONEWIRE_STATE_READ_DONE,
        samples.all (fun s => s.2), []) := by
    simp [onewire_process, hf]
  rw [hstep]
  refine ⟨rfl, ?_⟩
  cases hall : samples.all (fun s => s.2)
  · exact testBit_clear_bit rx bi hbi
  · exact testBit_set_bit rx bi hbi

/-- C7 witness: a window with one high sample at tick 10 and one low sample
at tick 20, closed at tick 100, records bit 0 of rx_byte as 0. -/
theorem read_bit_sample_window_records_witness :
    (onewire_process 1000 100 true
        (processRun 1000 [(10, true), (20, false)]
          ⟨ONEWIRE_STATE_READ_SAMPLE_BUS, 0, 0, 0, 0, 0⟩ true).1
        (processRun 1000 [(10, true), (20, false)]
          ⟨ONEWIRE_STATE_READ_SAMPLE_BUS, 0, 0, 0, 0, 0⟩ true).2.1).1.state =
      ONEWIRE_STATE_READ_DONE ∧
    (onewire_process 1000 100 true
        (processRun 1000 [(10, true), (20, false)]
          ⟨ONEWIRE_STATE_READ_SAMPLE_BUS, 0, 0, 0, 0, 0⟩ true).1
        (processRun 1000 [(10, true), (20, false)]
          ⟨ONEWIRE_STATE_READ_SAMPLE_BUS, 0, 0, 0, 0, 0⟩ true).2.1).1.rx_byte.testBit 0 =
      ([(10, true), (20, false)] : List (Nat × Bool)).all (fun s => s.2) :=
  read_bit_sample_window_records 1000 0 0 0 0 0 [(10, true), (20, false)] 100 true
    (by decide) (by decide) (by decide)

/-- C9 (amended): every one of the eleven timed phases advances to its
designated successor exactly when
(timestamp + pdMS_TO_TICKS(pdMS_TO_TICKS(c))) mod 2^32 <= now, where c is
the phase constant of timedConst: the ms-to-tick conversion is applied
twice, once by the call site and once inside is_time_expired, and collapses
to the single conversion the claim states only when the conversion is the
identity (1000 Hz tick rate). -/
theorem timed_phase_expiry_double_conversion (hz now : Nat) (pin g : Bool)
    (tx rx bi ts fr : Nat) (st : OneWireState) (h : isTimed st = true) :
    ((onewire_process hz now pin ⟨st, tx, rx, bi, ts, fr⟩ g).1.state = phaseSucc st ↔
      (ts + pdMS_TO_TICKS hz (pdMS_TO_TICKS hz (waitConst st))) % TICK_MOD ≤ now) := by
  cases st
  case ONEWIRE_STATE_IDLE => exact absurd h (by decide)
  case ONEWIRE_STATE_ERROR => exact absurd h (by decide)
  case ONEWIRE_STATE_RESET_DONE => exact absurd h (by decide)
  case ONEWIRE_STATE_WRITE_HIGH_INIT => exact absurd h (by decide)
  case ONEWIRE_STATE_WRITE_HIGH_DONE => exact absurd h (by decide)
  case ONEWIRE_STATE_WRITE_LOW_INIT => exact absurd h (by decide)
  case ONEWIRE_STATE_WRITE_LOW_DONE => exact absurd h (by decide)
  case ONEWIRE_STATE_READ_INIT => exact absurd h (by decide)
  case ONEWIRE_STATE_READ_DONE => exact absurd h (by decide)
  case ONEWIRE_STATE_RESET_INIT =>
    by_cases hE :
        (ts + pdMS_TO_TICKS hz (pdMS_TO_TICKS hz RESET_INIT_DELAY)) % TICK_MOD ≤ now <;>
      simp [onewire_process, is_time_expired, set_state, phaseSucc, waitConst, timedConst, hE]
  case ONEWIRE_STATE_RESET_DRIVE_BUS_LOW =>
    by_cases hE :
        (ts + pdMS_TO_TICKS hz (pdMS_TO_TICKS hz RESET_DRIVE_BUS_LOW_DELAY)) % TICK_MOD ≤ now <;>
      simp [onewire_process, is_time_expired, set_state, phaseSucc, waitConst, timedConst, hE]
  case ONEWIRE_STATE_RESET_RELEASE_BUS =>
    by_cases hE :
        (ts + pdMS_TO_TICKS hz (pdMS_TO_TICKS hz RESET_RELEASE_BUS_DELAY)) % TICK_MOD ≤ now <;>
      simp [onewire_process, is_time_expired, set_state, reset_flag, phaseSucc, waitConst,
        timedConst, hE]
  case ONEWIRE_STATE_RESET_SAMPLE_BUS =>
    by_cases hE :
        (ts + pdMS_TO_TICKS hz (pdMS_TO_TICKS hz RESET_SAMPLE_BUS_DELAY)) % TICK_MOD ≤ now <;>
      simp [onewire_process, is_time_expired, set_state, phaseSucc, waitConst, timedConst, hE]
  case ONEWIRE_STATE_WRITE_HIGH_DRIVE_BUS_LOW =>
    by_cases hE :
        (ts + pdMS_TO_TICKS hz (pdMS_TO_TICKS hz WRITE_1_LOW_DELAY)) % TICK_MOD ≤ now <;>
      simp [onewire_process, is_time_expired, set_state, phaseSucc, waitConst, timedConst, hE]
  case ONEWIRE_STATE_WRITE_HIGH_RELEASE_BUS =>
    by_cases hE :
        (ts + pdMS_TO_TICKS hz (pdMS_TO_TICKS hz WRITE_1_RELEASE_BUS_DELAY)) % TICK_MOD ≤ now <;>
      simp [onewire_process, is_time_expired, set_state, phaseSucc, waitConst, timedConst, hE]
  case ONEWIRE_STATE_WRITE_LOW_DRIVE_BUS_LOW =>
    by_cases hE :
        (ts + pdMS_TO_TICKS hz (pdMS_TO_TICKS hz WRITE_0_LOW_DELAY)) % TICK_MOD ≤ now <;>
      simp [onewire_process, is_time_expired, set_state, phaseSucc, waitConst, timedConst, hE]
  case ONEWIRE_STATE_WRITE_LOW_RELEASE_BUS =>
    by_cases hE :
        (ts + pdMS_TO_TICKS hz (pdMS_TO_TICKS hz WRITE_0_RELEASE_BUS_DELAY)) % TICK_MOD ≤ now <;>
      simp [onewire_process, is_time_expired, set_state, phaseSucc, waitConst, timedConst, hE]
  case ONEWIRE_STATE_READ_DRIVE_BUS_LOW =>
    by_cases hE :
        (ts + pdMS_TO_TICKS hz (pdMS_TO_TICKS hz WRITE_1_LOW_DELAY)) % TICK_MOD ≤ now <;>
      simp [onewire_process, is_time_expired, set_state, phaseSucc, waitConst, timedConst, hE]
  case ONEWIRE_STATE_READ_RELEASE_BUS =>
    by_cases hE :
        (ts + pdMS_TO_TICKS hz (pdMS_TO_TICKS hz READ_RELEASE_BUS_DELAY)) % TICK_MOD ≤ now <;>
      simp [onewire_process, is_time_expired, set_state, phaseSucc, waitConst, timedConst, hE]
  case ONEWIRE_STATE_READ_SAMPLE_BUS =>
    by_cases hE :
        (ts + pdMS_TO_TICKS hz (pdMS_TO_TICKS hz READ_SAMPLE_DELAY)) % TICK_MOD ≤ now <;>
      simp [onewire_process, is_time_expired, set_state, phaseSucc, waitConst, timedConst, hE]

/-- C9 witness: a write-1 release phase (constant 64, timestamp 0) at tick
rate 1000 polled at tick 64. -/
theorem timed_phase_expiry_double_conversion_witness :
    (onewire_process 1000 64 true
        ⟨ONEWIRE_STATE_WRITE_HIGH_RELEASE_BUS, 0, 0, 0, 0, 0⟩ true).1.state =
      phaseSucc ONEWIRE_STATE_WRITE_HIGH_RELEASE_BUS ↔
    ((0 : Nat) + pdMS_TO_TICKS 1000 (pdMS_TO_TICKS 1000
        (waitConst ONEWIRE_STATE_WRITE_HIGH_RELEASE_BUS))) % TICK_MOD ≤ 64 :=
  timed_phase_expiry_double_conversion 1000 64 true true 0 0 0 0 0
    ONEWIRE_STATE_WRITE_HIGH_RELEASE_BUS (by decide)

/-- C9 counterexample: at a 500 Hz tick rate the reset drive-low phase
(constant 480) advances at tick 120 — the code treats it as expired because
the constant is converted twice (480 ms -> 240 ticks -> 120 ticks) — even
though the deadline of the claim, timestamp + once-converted delay = 240,
has not been reached, so the claimed single-conversion expiry rule is
false. -/
theorem timed_phase_single_conversion_refuted :
    (onewire_process 500 120 true
        ⟨ONEWIRE_STATE_RESET_DRIVE_BUS_LOW, 0, 0, 0, 0, 0⟩ true).1.state =
      ONEWIRE_STATE_RESET_RELEASE_BUS ∧
    120 < ((0 : Nat) + pdMS_TO_TICKS 500 RESET_DRIVE_BUS_LOW_DELAY) % TICK_MOD := by
  decide
